import Mathlib

/-!
Shallow embedding of the delayed/coalescing log core of ZapSmtp
(src/cores/delayedCore.go, package cores), together with theorems checking
the natural-language specification of the component against it.

Modelling conventions:
* zap severity levels are signed integers (Debug = -1 .. Fatal = 5);
* a level enabler is a boolean predicate on levels;
* encoded entry bytes are kept abstract as lists of characters;
* `time.Duration` and `time.Time` values are integers (nanosecond counts);
* the single-shot timer is `Option Int`: `none` is Go's nil timer handle,
  `some d` a timer set to fire at absolute time `d` (Reset with a remaining
  duration `r` at wall time `now` yields deadline `now + r`);
* the buffered error channel `errCh` is the list of errors currently queued;
* the sink (`zapcore.WriteSyncer`) is external and modelled by its observable
  responses: the error its `Write` returns for a given payload and the error
  its `Sync` returns; errors are strings, `multierr` aggregation is a list.
-/

namespace ZapSmtp

/-- zapcore severity levels are a signed integer enumeration. -/
abbrev Level := Int

def debugLevel : Level := -1

def infoLevel : Level := 0

def warnLevel : Level := 1

/-- zapcore.ErrorLevel, the threshold in `Write` for an inline flush. -/
def errorLevel : Level := 2

def dpanicLevel : Level := 3

def panicLevel : Level := 4

def fatalLevel : Level := 5

/-- Encoded log entry bytes (the contents of a zap buffer.Buffer). -/
abbrev Bytes := List Char

/-- The external sink (zapcore.WriteSyncer), modelled by its responses:
`writeErr p` is the error its Write returns when handed payload `p`
(`none` = success), `syncErr` the error its Sync returns. -/
structure WriteSyncer where
  writeErr : Bytes → Option String
  syncErr : Option String

/-- The external encoder is only ever cloned and extended with fields by the
core; we model it as the list of context fields baked into it. -/
abbrev Encoder := List Int

/-- State of the delayedCore struct (src/cores/delayedCore.go lines 22-36). -/
structure DelayedCore where
  levelEnabler : Level → Bool
  enc : Encoder
  out : WriteSyncer
  priority : Level → Bool
  delay : Int
  delayPriority : Int
  entriesBuf : List Bytes
  entriesPriorityBuf : List Bytes
  timer : Option Int
  timeStart : Int
  errCh : List String

/-- NewDelayedCore (lines 41-67): rejects `delay < delayPriority`, otherwise
returns a core with empty queues; the timer, time marker and remaining fields
take Go zero values (nil timer, zero time), and `errCh` starts empty. -/
def NewDelayedCore (enab : Level → Bool) (enc : Encoder) (out : WriteSyncer)
    (priority : Level → Bool) (delay : Int) (delayPriority : Int) :
    Except String DelayedCore :=
  if delay < delayPriority then
    .error "priority delay lower than standard delay"
  else
    .ok
      { levelEnabler := enab
        enc := enc
        out := out
        priority := priority
        delay := delay
        delayPriority := delayPriority
        entriesBuf := []
        entriesPriorityBuf := []
        timer := none
        timeStart := 0
        errCh := [] }

/-- clone (lines 211-218): the Go composite literal sets only the enabler,
priority enabler, cloned encoder and sink; every other field gets its Go zero
value (zero durations, nil slices, nil timer, zero time, nil channel). -/
def DelayedCore.clone (c : DelayedCore) : DelayedCore :=
  { levelEnabler := c.levelEnabler
    enc := c.enc
    out := c.out
    priority := c.priority
    delay := 0
    delayPriority := 0
    entriesBuf := []
    entriesPriorityBuf := []
    timer := none
    timeStart := 0
    errCh := [] }

/-- addFields (lines 77-81): adds each field to the encoder in order. -/
def addFields (enc : Encoder) (fields : List Int) : Encoder :=
  enc ++ fields

/-- With (lines 70-74): clone the core, then add the fields to the clone's
encoder. -/
def DelayedCore.With (c : DelayedCore) (fields : List Int) : DelayedCore :=
  let cl := c.clone
  { cl with enc := addFields cl.enc fields }

/-- Check (lines 83-88): admission test used by the zap framework. -/
def DelayedCore.Check (c : DelayedCore) (level : Level) : Bool :=
  c.levelEnabler level || c.priority level

def priorityHeader : Bytes := "=== Priority Log ===\n".toList

def standardHeader : Bytes := "=== Standard Log ===\n".toList

def newline : Bytes := "\n".toList

/-- Outcome of one Sync call: the core afterwards, the returned error, the
payloads handed to the sink's Write (in order) and whether the sink's Sync
was reached. -/
structure SyncResult where
  core : DelayedCore
  err : Option String
  written : List Bytes
  outSynced : Bool

/-- Sync (lines 166-209): serializes the two queues into one payload
(priority section first, then standard section), truncating each queue to
length zero as it is serialized, then hands the payload to the sink's Write;
on Write success it returns the sink's Sync result. Both queues are cleared
during serialization, before the sink is consulted. -/
def DelayedCore.Sync (c : DelayedCore) : SyncResult :=
  let msg0 : Bytes := []
  let msg1 : Bytes :=
    if c.entriesPriorityBuf.length > 0 then
      (c.entriesPriorityBuf.foldl (fun m b => m ++ b) (msg0 ++ priorityHeader))
        ++ newline ++ newline
    else msg0
  let pbuf1 : List Bytes :=
    if c.entriesPriorityBuf.length > 0 then [] else c.entriesPriorityBuf
  let msg2 : Bytes :=
    if c.entriesBuf.length > 0 then
      c.entriesBuf.foldl (fun m b => m ++ b) (msg1 ++ standardHeader)
    else msg1
  let sbuf1 : List Bytes :=
    if c.entriesBuf.length > 0 then [] else c.entriesBuf
  let c1 := { c with entriesPriorityBuf := pbuf1, entriesBuf := sbuf1 }
  match c.out.writeErr msg2 with
  | some e => { core := c1, err := some e, written := [msg2], outSynced := false }
  | none => { core := c1, err := c.out.syncErr, written := [msg2], outSynced := true }

/-- Outcome of one Write call: the core afterwards, the returned error
(`multierr` aggregate as a list, `[]` plays nil), whether the crash-risk
inline Sync ran, whether a background flush goroutine was started, the
payloads handed to the sink during the call and whether the sink's Sync
was reached during the call. -/
structure WriteResult where
  core : DelayedCore
  errs : List String
  syncedInline : Bool
  spawned : Bool
  written : List Bytes
  outSynced : Bool

/-- The mutex-guarded first half of Write (lines 99-127): arm the timer with
the standard delay when both queues are empty (recording the arming time),
shorten it for a first priority entry (Reset with the remainder of
delayPriority measured from timeStart, so the absolute deadline becomes
`now + (delayPriority - (now - timeStart))`), then enqueue the encoded bytes
into the queue the predicates select. Returns the updated core together with
the startRoutine flag. -/
def DelayedCore.writeBuffer (c : DelayedCore) (now : Int) (level : Level)
    (buf : Bytes) : DelayedCore × Bool :=
  let startRoutine : Bool :=
    c.entriesBuf.length == 0 && c.entriesPriorityBuf.length == 0
  let c1 : DelayedCore :=
    if startRoutine then
      { c with timeStart := now, timer := some (now + c.delay) }
    else c
  let c2 : DelayedCore :=
    if c.priority level && c.entriesPriorityBuf.length == 0 then
      { c1 with timer := some (now + (c1.delayPriority - (now - c1.timeStart))) }
    else c1
  let c3 : DelayedCore :=
    if c.priority level then
      { c2 with entriesPriorityBuf := c2.entriesPriorityBuf ++ [buf] }
    else if c.levelEnabler level then
      { c2 with entriesBuf := c2.entriesBuf ++ [buf] }
    else c2
  (c3, startRoutine)

/-- Write (lines 90-163), on the path where the external encoder succeeded
and handed back the entry's encoded bytes `buf`; `now` is the wall time of
the call. After the buffering half: run an inline Sync for levels above
error, returning its error on failure without draining the channel or
spawning the goroutine; otherwise spawn the timer goroutine when the timer
was just armed, drain `errCh` and return the drained errors. -/
def DelayedCore.Write (c : DelayedCore) (now : Int) (level : Level)
    (buf : Bytes) : WriteResult :=
  let c3 := (c.writeBuffer now level buf).1
  let startRoutine := (c.writeBuffer now level buf).2
  if errorLevel < level then
    let r := c3.Sync
    match r.err with
    | some e =>
        { core := r.core, errs := [e], syncedInline := true, spawned := false,
          written := r.written, outSynced := r.outSynced }
    | none =>
        { core := { r.core with errCh := [] }, errs := r.core.errCh,
          syncedInline := true, spawned := startRoutine,
          written := r.written, outSynced := r.outSynced }
  else
    { core := { c3 with errCh := [] }, errs := c3.errCh,
      syncedInline := false, spawned := startRoutine, written := [],
      outSynced := false }

/-- The body of the goroutine spawned on arming (lines 140-147), run when the
timer fires: call Sync and push its error, if any, onto the error channel. -/
def DelayedCore.backgroundFlush (c : DelayedCore) : DelayedCore :=
  let r := c.Sync
  match r.err with
  | some e => { r.core with errCh := r.core.errCh ++ [e] }
  | none => r.core

/-! Concrete fixtures used to evaluate the model at specific inputs. -/

/-- A sink that accepts every payload and whose Sync succeeds. -/
def okSink : WriteSyncer := { writeErr := fun _ => none, syncErr := none }

/-- A sink whose Write fails on every payload. -/
def failWriteSink : WriteSyncer :=
  { writeErr := fun _ => some "failed", syncErr := none }

/-- A freshly constructed core: Info-level enabler, Warn-level priority
enabler, standard delay 4, priority delay 2, healthy sink. -/
def testCore : DelayedCore :=
  { levelEnabler := fun l => decide (0 ≤ l)
    enc := []
    out := okSink
    priority := fun l => decide (1 ≤ l)
    delay := 4
    delayPriority := 2
    entriesBuf := []
    entriesPriorityBuf := []
    timer := none
    timeStart := 0
    errCh := [] }

/-- testCore holding one standard entry and one priority entry, armed at time
0 (deadline 4 = timeStart + delay), wired to a sink whose Write fails. -/
def coreLoaded : DelayedCore :=
  { testCore with
    out := failWriteSink
    entriesBuf := ["s".toList]
    entriesPriorityBuf := ["p".toList]
    timer := some 4 }

/-- testCore after a failed background flush left an error on the channel;
queues empty, sink healthy again. -/
def corePendingError : DelayedCore :=
  { testCore with errCh := ["background flush failed"] }

/-- testCore (both queues empty, timer disarmed) wired to a sink whose Write
fails. -/
def coreEmptyFailingSink : DelayedCore :=
  { testCore with out := failWriteSink }

/-- testCore holding 999 standard entries, armed at time 0 with the standard
deadline 4. -/
def coreNineNineNine : DelayedCore :=
  { testCore with
    entriesBuf := List.replicate 999 "x".toList
    timer := some 4 }

/-- testCore holding one standard entry, armed at time 0 with the standard
deadline 4; the priority queue is still empty. -/
def coreArmedStandard : DelayedCore :=
  { testCore with
    entriesBuf := ["s".toList]
    timer := some 4 }

/-- testCore with predicates accepting exactly one level each (Info for the
standard queue, Warn for the priority queue), so that even crash-risk levels
above the error level fail both predicates. -/
def coreNarrow : DelayedCore :=
  { testCore with
    levelEnabler := fun l => decide (l = 0)
    priority := fun l => decide (l = 1) }

/-! General helper lemmas shared by several claims. -/

/-- Truncating a queue to length zero when it is non-empty, and leaving it
alone when it is already empty, always yields the empty queue. -/
theorem truncate_eq_nil (l : List Bytes) :
    (if l.length > 0 then ([] : List Bytes) else l) = [] := by
  cases l <;> simp

/-- Sync clears both queues no matter what the sink answers, and changes no
other field of the core. -/
theorem sync_core_eq (c : DelayedCore) :
    (c.Sync).core = { c with entriesPriorityBuf := [], entriesBuf := [] } := by
  simp only [DelayedCore.Sync, truncate_eq_nil]
  split <;> rfl

/-- When the sink accepts every payload, Sync reaches the sink's own Sync and
returns its result. -/
theorem sync_out_ok (c : DelayedCore) (h : ∀ p, c.out.writeErr p = none) :
    (c.Sync).outSynced = true ∧ (c.Sync).err = c.out.syncErr := by
  simp only [DelayedCore.Sync]
  rw [h]
  exact ⟨rfl, rfl⟩

/-- The second half of Write never changes the timer: it carries the timer
the buffering half produced. -/
theorem write_core_timer (c : DelayedCore) (now : Int) (level : Level)
    (buf : Bytes) :
    (c.Write now level buf).core.timer =
      ((c.writeBuffer now level buf).1).timer := by
  simp only [DelayedCore.Write]
  split
  · split <;> simp [sync_core_eq]
  · rfl

/-- The buffering half of Write never touches the sink handle. -/
theorem writeBuffer_out (c : DelayedCore) (now : Int) (level : Level)
    (buf : Bytes) :
    ((c.writeBuffer now level buf).1).out = c.out := by
  simp only [DelayedCore.writeBuffer]
  repeat' split
  all_goals rfl

/-- Appending buffers one by one, as the Go serialization loop does, is the
same as appending their concatenation. -/
theorem foldl_append_eq_flatten (l : List Bytes) (a : Bytes) :
    l.foldl (fun m b => m ++ b) a = a ++ l.flatten := by
  induction l generalizing a with
  | nil => simp
  | cons x xs ih => simp [ih, List.append_assoc]

theorem newline_pair : newline ++ newline = "\n\n".toList := by decide

/-- The combined payload exactly as the specification's wire-format sentences
describe it: when the priority queue is non-empty, the header
"=== Priority Log ===\n" followed by the priority entries' bytes concatenated
in insertion order followed by two newlines; then, when the standard queue is
non-empty, the header "=== Standard Log ===\n" followed by the standard
entries' bytes concatenated in insertion order. -/
def specPayload (pbufs sbufs : List Bytes) : Bytes :=
  (if pbufs ≠ [] then
    "=== Priority Log ===\n".toList ++ pbufs.flatten ++ "\n\n".toList
  else []) ++
  (if sbufs ≠ [] then
    "=== Standard Log ===\n".toList ++ sbufs.flatten
  else [])

/-- Sync hands the sink exactly one payload, and it is the wire format
specPayload describes, built from the queue contents at flush time. -/
theorem sync_written_spec (c : DelayedCore) :
    (c.Sync).written = [specPayload c.entriesPriorityBuf c.entriesBuf] := by
  have hmsg : ∀ o : Option String, ∀ c1 : DelayedCore, ∀ m : Bytes,
      (match o with
        | some e =>
            ({ core := c1, err := some e, written := [m], outSynced := false } :
              SyncResult)
        | none =>
            ({ core := c1, err := c.out.syncErr, written := [m],
               outSynced := true } : SyncResult)).written = [m] := by
    intro o c1 m
    cases o <;> rfl
  simp only [DelayedCore.Sync, specPayload]
  rw [hmsg]
  by_cases hp : c.entriesPriorityBuf = [] <;>
    by_cases hs : c.entriesBuf = [] <;>
      simp [hp, hs, List.length_pos, foldl_append_eq_flatten, newline_pair,
        List.append_assoc, priorityHeader, standardHeader]

/-- C7: for every pair of queue contents at flush time, the payload handed to
the sink's Write equals the specification's wire format: the priority section
(header, entries in insertion order, two newlines) when the priority queue is
non-empty, then the standard section (header, entries in insertion order)
when the standard queue is non-empty; every entry appears exactly once,
priority entries before standard entries. -/
theorem sync_payload_matches_spec (c : DelayedCore) :
    (c.Sync).written = [specPayload c.entriesPriorityBuf c.entriesBuf] :=
  sync_written_spec c

/-- C10: construction fails with the configuration error precisely when
priorityDelay exceeds standardDelay (no instance is produced), and otherwise
succeeds with an instance whose queues are empty, whose timer is disarmed and
whose pending-error collection is empty. -/
theorem newDelayedCore_spec (enab : Level → Bool) (enc : Encoder)
    (out : WriteSyncer) (priority : Level → Bool) (delay delayPriority : Int) :
    (delay < delayPriority →
      NewDelayedCore enab enc out priority delay delayPriority =
        .error "priority delay lower than standard delay") ∧
    (delayPriority ≤ delay →
      NewDelayedCore enab enc out priority delay delayPriority =
        .ok { levelEnabler := enab, enc := enc, out := out, priority := priority,
              delay := delay, delayPriority := delayPriority, entriesBuf := [],
              entriesPriorityBuf := [], timer := none, timeStart := 0,
              errCh := [] }) := by
  constructor
  · intro h
    simp [NewDelayedCore, h]
  · intro h
    simp [NewDelayedCore, not_lt.mpr h]

/-- C4 counterexample: the derived instance does not share the parent's delay
configuration. The parent testCore has standard delay 4 and priority delay 2,
but the core that With returns carries delay 0 and priority delay 0 (the Go
clone literal omits both duration fields, so they take zero values). -/
theorem with_clone_drops_delays :
    (testCore.With [7]).delay = 0 ∧ (testCore.With [7]).delayPriority = 0 ∧
    testCore.delay = 4 ∧ testCore.delayPriority = 2 := by decide

/-- C4 amended: With returns a clone that shares the parent's sink and both
level predicates, carries an independently cloned encoder with the extra
fields added, and has fresh empty queues, a disarmed timer and a fresh
pending-error collection — but the two delay durations are NOT shared: both
are zero in the clone. -/
theorem with_clone_spec (c : DelayedCore) (fields : List Int) :
    (c.With fields).out = c.out ∧
    (c.With fields).levelEnabler = c.levelEnabler ∧
    (c.With fields).priority = c.priority ∧
    (c.With fields).enc = c.enc ++ fields ∧
    (c.With fields).entriesBuf = [] ∧
    (c.With fields).entriesPriorityBuf = [] ∧
    (c.With fields).timer = none ∧
    (c.With fields).errCh = [] ∧
    (c.With fields).delay = 0 ∧
    (c.With fields).delayPriority = 0 := by
  simp [DelayedCore.With, DelayedCore.clone, addFields]

/-- C1 (code-bug evidence): with one standard and one priority entry queued
and a sink whose Write fails, Sync returns the sink's error, but both queues
have already been emptied during serialization, before the sink answered —
the queued entries are lost instead of being retained for a later flush. -/
theorem sync_write_failure_loses_queued_entries :
    coreLoaded.entriesBuf = ["s".toList] ∧
    coreLoaded.entriesPriorityBuf = ["p".toList] ∧
    (coreLoaded.Sync).err = some "failed" ∧
    (coreLoaded.Sync).core.entriesBuf = [] ∧
    (coreLoaded.Sync).core.entriesPriorityBuf = [] := by decide

/-- C3 (code-bug evidence): after a background flush left an error on the
pending-error channel, the next explicit Sync (queues empty, sink healthy)
returns nil and leaves the channel untouched: Sync never drains the
collection — only a later Write would return the error. -/
theorem sync_skips_pending_error_channel :
    corePendingError.errCh = ["background flush failed"] ∧
    (corePendingError.Sync).err = none ∧
    (corePendingError.Sync).core.errCh = ["background flush failed"] := by
  decide

/-- C6 (code-bug evidence): Sync on a core with both queues empty still hands
an (empty) payload to the sink's Write and returns the sink's error instead
of succeeding immediately without touching the sink. -/
theorem sync_on_empty_queues_calls_sink :
    coreEmptyFailingSink.entriesBuf = [] ∧
    coreEmptyFailingSink.entriesPriorityBuf = [] ∧
    (coreEmptyFailingSink.Sync).written = [[]] ∧
    (coreEmptyFailingSink.Sync).err = some "failed" := by decide

set_option maxRecDepth 8000 in
/-- C2 counterexample: a write that brings the combined queue length to
exactly 1000 entries (999 standard entries plus this one) leaves the timer
exactly where it was — deadline 4 with 1 remaining at wall time 3, not a
zero or negative remaining duration. There is no back-pressure ceiling in
the code. -/
theorem write_at_ceiling_leaves_timer_unchanged :
    ((coreNineNineNine.Write 3 infoLevel "y".toList).core.entriesBuf.length +
        (coreNineNineNine.Write 3 infoLevel
            "y".toList).core.entriesPriorityBuf.length =
      1000) ∧
    (coreNineNineNine.Write 3 infoLevel "y".toList).core.timer = some 4 ∧
    ¬((4 : Int) - 3 ≤ 0) := by decide

/-- C2 amended: the implementation has no queue-length back-pressure rule:
a write of a non-priority entry while the queues are not both empty leaves
the timer untouched, whatever the combined queue length (1000 included). -/
theorem write_timer_ignores_queue_length (c : DelayedCore) (now : Int)
    (level : Level) (buf : Bytes)
    (hp : c.priority level = false)
    (hne : (c.entriesBuf.length == 0 && c.entriesPriorityBuf.length == 0) =
      false) :
    (c.Write now level buf).core.timer = c.timer := by
  rw [write_core_timer]
  simp only [DelayedCore.writeBuffer, hne, hp, Bool.false_and,
    Bool.false_eq_true, if_false]
  split <;> rfl

theorem write_timer_ignores_queue_length_witness :
    (coreArmedStandard.Write 3 infoLevel "y".toList).core.timer =
      coreArmedStandard.timer :=
  write_timer_ignores_queue_length coreArmedStandard 3 infoLevel
    ("y".toList) (by decide) (by decide)

/-- C5 counterexample: on the fresh testCore, a write whose level fails both
predicates (Debug: below Info and below Warn) adds the entry to neither queue
and returns no error, but it DOES arm the timer (deadline 10 + 4) and start
the background flush goroutine — the scheduler state changes, contrary to
the claim. -/
theorem rejected_write_arms_timer :
    (testCore.Write 10 debugLevel "d".toList).core.entriesBuf = [] ∧
    (testCore.Write 10 debugLevel "d".toList).core.entriesPriorityBuf = [] ∧
    (testCore.Write 10 debugLevel "d".toList).errs = [] ∧
    testCore.timer = none ∧
    (testCore.Write 10 debugLevel "d".toList).core.timer = some 14 ∧
    (testCore.Write 10 debugLevel "d".toList).spawned = true := by decide

/-- C5 amended: a write whose level fails both predicates appends the entry
to neither queue, so the entry itself never appears in any flushed payload —
but such a write does change the scheduler state: when both queues are empty
it arms the timer with the standard delay (arming happens before the level
predicates are examined), and otherwise it leaves the timer unchanged. When
the rejected level is at or below the error level the call hands nothing to
the sink, starts the background flush goroutine exactly when it armed the
timer, and returns only the previously pending background-flush errors; when
the rejected level is above the error level the write still runs the inline
flush, handing the sink a payload built solely from the previously queued
entries (the rejected entry is not in it). -/
theorem rejected_write_drops_entry (c : DelayedCore) (now : Int)
    (level : Level) (buf : Bytes)
    (hp : c.priority level = false)
    (he : c.levelEnabler level = false) :
    ((c.writeBuffer now level buf).1).entriesBuf = c.entriesBuf ∧
    ((c.writeBuffer now level buf).1).entriesPriorityBuf =
      c.entriesPriorityBuf ∧
    (c.Write now level buf).core.timer =
      (if c.entriesBuf.length == 0 && c.entriesPriorityBuf.length == 0 then
        some (now + c.delay)
      else c.timer) ∧
    (level ≤ errorLevel →
      (c.Write now level buf).core.entriesBuf = c.entriesBuf ∧
      (c.Write now level buf).core.entriesPriorityBuf =
        c.entriesPriorityBuf ∧
      (c.Write now level buf).errs = c.errCh ∧
      (c.Write now level buf).written = [] ∧
      (c.Write now level buf).spawned =
        (c.entriesBuf.length == 0 && c.entriesPriorityBuf.length == 0)) ∧
    (errorLevel < level →
      (c.Write now level buf).syncedInline = true ∧
      (c.Write now level buf).written =
        [specPayload c.entriesPriorityBuf c.entriesBuf]) := by
  have hqs : ((c.writeBuffer now level buf).1).entriesBuf = c.entriesBuf ∧
      ((c.writeBuffer now level buf).1).entriesPriorityBuf =
        c.entriesPriorityBuf := by
    by_cases hs :
        (c.entriesBuf.length == 0 && c.entriesPriorityBuf.length == 0) =
          true <;>
      simp [DelayedCore.writeBuffer, hp, he, hs]
  refine ⟨hqs.1, hqs.2, ?_, ?_, ?_⟩
  · rw [write_core_timer]
    by_cases hs :
        (c.entriesBuf.length == 0 && c.entriesPriorityBuf.length == 0) =
          true <;>
      simp [DelayedCore.writeBuffer, hp, he, hs]
  · intro hl
    have hnl : ¬(errorLevel < level) := not_lt.mpr hl
    simp only [DelayedCore.Write, if_neg hnl]
    by_cases hs :
        (c.entriesBuf.length == 0 && c.entriesPriorityBuf.length == 0) =
          true <;>
      simp [DelayedCore.writeBuffer, hp, he, hs]
  · intro hl
    have hw : (((c.writeBuffer now level buf).1).Sync).written =
        [specPayload c.entriesPriorityBuf c.entriesBuf] := by
      rw [sync_written_spec ((c.writeBuffer now level buf).1), hqs.1, hqs.2]
    simp only [DelayedCore.Write, if_pos hl]
    rcases hcase : (((c.writeBuffer now level buf).1).Sync).err with _ | e
    · exact ⟨rfl, hw⟩
    · exact ⟨rfl, hw⟩

theorem rejected_write_drops_entry_witness :
    ((coreNarrow.writeBuffer 10 fatalLevel "f".toList).1).entriesBuf =
      coreNarrow.entriesBuf ∧
    ((coreNarrow.writeBuffer 10 fatalLevel "f".toList).1).entriesPriorityBuf =
      coreNarrow.entriesPriorityBuf ∧
    (coreNarrow.Write 10 fatalLevel "f".toList).core.timer =
      (if coreNarrow.entriesBuf.length == 0 &&
          coreNarrow.entriesPriorityBuf.length == 0 then
        some (10 + coreNarrow.delay)
      else coreNarrow.timer) ∧
    (fatalLevel ≤ errorLevel →
      (coreNarrow.Write 10 fatalLevel "f".toList).core.entriesBuf =
        coreNarrow.entriesBuf ∧
      (coreNarrow.Write 10 fatalLevel "f".toList).core.entriesPriorityBuf =
        coreNarrow.entriesPriorityBuf ∧
      (coreNarrow.Write 10 fatalLevel "f".toList).errs = coreNarrow.errCh ∧
      (coreNarrow.Write 10 fatalLevel "f".toList).written = [] ∧
      (coreNarrow.Write 10 fatalLevel "f".toList).spawned =
        (coreNarrow.entriesBuf.length == 0 &&
          coreNarrow.entriesPriorityBuf.length == 0)) ∧
    (errorLevel < fatalLevel →
      (coreNarrow.Write 10 fatalLevel "f".toList).syncedInline = true ∧
      (coreNarrow.Write 10 fatalLevel "f".toList).written =
        [specPayload coreNarrow.entriesPriorityBuf coreNarrow.entriesBuf]) :=
  rejected_write_drops_entry coreNarrow 10 fatalLevel ("f".toList)
    (by decide) (by decide)

/-- C8: a write carrying the first priority-level entry since the queues were
last emptied resets the timer deadline to the remainder of priorityDelay
measured from the arming time (the arming time being now itself when this
write also armed the timer): the new absolute deadline is
`now + (priorityDelay - elapsed)`. Given the construction invariant
`priorityDelay ≤ standardDelay`, that deadline never lies beyond the
standard deadline measured from the same arming time, and when priorityDelay
has already elapsed the new deadline lies before now, so the timer fires
immediately. -/
theorem write_first_priority_shortens_deadline (c : DelayedCore) (now : Int)
    (level : Level) (buf : Bytes)
    (hp : c.priority level = true)
    (he : c.entriesPriorityBuf = [])
    (hd : c.delayPriority ≤ c.delay) :
    ((c.Write now level buf).core.timer =
      some (now + (c.delayPriority - (now -
        (if c.entriesBuf.length == 0 then now else c.timeStart))))) ∧
    (now + (c.delayPriority - (now -
        (if c.entriesBuf.length == 0 then now else c.timeStart))) ≤
      (if c.entriesBuf.length == 0 then now else c.timeStart) + c.delay) ∧
    (c.delayPriority < now -
        (if c.entriesBuf.length == 0 then now else c.timeStart) →
      now + (c.delayPriority - (now -
        (if c.entriesBuf.length == 0 then now else c.timeStart))) < now) := by
  have h1 : (c.Write now level buf).core.timer =
      some (now + (c.delayPriority - (now -
        (if c.entriesBuf.length == 0 then now else c.timeStart)))) := by
    rw [write_core_timer]
    by_cases hb : (c.entriesBuf.length == 0) = true <;>
      simp [DelayedCore.writeBuffer, hp, he, hb]
  refine ⟨h1, ?_, ?_⟩ <;>
    by_cases hb : (c.entriesBuf.length == 0) = true <;> simp [hb] <;> omega

theorem write_first_priority_shortens_deadline_witness :
    (coreArmedStandard.Write 3 warnLevel "w".toList).core.timer = some 2 := by
  have h := write_first_priority_shortens_deadline coreArmedStandard 3
    warnLevel ("w".toList) (by decide) rfl (by decide)
  simpa [coreArmedStandard, testCore] using h.1

/-- C9: a write whose level is strictly above the error level runs the flush
inline — Sync is called before Write returns, and (for a sink that accepts
the payload) the sink's own Sync has been called by the time Write returns,
whatever the timer state; a write at or below the error level triggers no
inline flush and hands nothing to the sink. -/
theorem write_inline_flush_above_error (c : DelayedCore) (now : Int)
    (level : Level) (buf : Bytes)
    (hw : ∀ p, c.out.writeErr p = none) :
    (c.Write now level buf).syncedInline = decide (errorLevel < level) ∧
    (c.Write now level buf).outSynced = decide (errorLevel < level) ∧
    (level ≤ errorLevel → (c.Write now level buf).written = []) := by
  have hw3 : ∀ p, ((c.writeBuffer now level buf).1).out.writeErr p = none := by
    rw [writeBuffer_out]
    exact hw
  have hs := sync_out_ok ((c.writeBuffer now level buf).1) hw3
  by_cases hl : errorLevel < level
  · have hdec : decide (errorLevel < level) = true := decide_eq_true hl
    simp only [DelayedCore.Write, if_pos hl, hdec]
    rcases hcase : (((c.writeBuffer now level buf).1).Sync).err with _ | e
    · exact ⟨rfl, hs.1, fun h => absurd hl (not_lt.mpr h)⟩
    · exact ⟨rfl, hs.1, fun h => absurd hl (not_lt.mpr h)⟩
  · simp [DelayedCore.Write, hl]

theorem write_inline_flush_above_error_witness :
    (testCore.Write 0 panicLevel "f".toList).syncedInline =
      decide (errorLevel < panicLevel) ∧
    (testCore.Write 0 panicLevel "f".toList).outSynced =
      decide (errorLevel < panicLevel) ∧
    (panicLevel ≤ errorLevel →
      (testCore.Write 0 panicLevel "f".toList).written = []) :=
  write_inline_flush_above_error testCore 0 panicLevel ("f".toList)
    (fun _ => rfl)

end ZapSmtp
